import Mathlib

/-!
Shallow embedding of `ingest.py` (HW8 Azure SQL ingestion script) and
verification of its specification.

The script is a linear pipeline: driver discovery with fallback
(`build_engine`), CSV loading with an encoding fallback (`read_csv_any`),
existence checks (`ensure_exists`), replace-semantics table writes and a
best-effort row-count verification (`main`).

External effects (the ODBC drivers, the filesystem, pandas' CSV parser and
`DataFrame.to_sql`) are modelled as oracles in a `World` structure and as
small functions following the libraries' documented semantics; the control
flow of the script itself is translated statement by statement.
-/

set_option autoImplicit false

/-- One cell of an in-memory table. pandas cells may be text, a missing-value
sentinel (NaN), or an inferred number; the script's flags are supposed to keep
everything text, which this type lets us state rather than assume. -/
inductive Cell where
  | text (s : String)
  | na
  | num (n : Nat)
  deriving DecidableEq, Repr

/-- A raw CSV once decoded: a header row and data rows, all plain strings. -/
structure RawCsv where
  header : List String
  rows : List (List String)
  deriving DecidableEq, Repr

/-- An in-memory table snapshot (the model of a pandas DataFrame). -/
structure PTable where
  header : List String
  rows : List (List Cell)
  deriving DecidableEq, Repr

/-- Markers that pandas converts to NaN when `keep_default_na` is true
(representative subset of the documented list; it contains the empty string). -/
def defaultNaValues : List String :=
  ["", "#N/A", "N/A", "NA", "NaN", "nan", "NULL", "null", "None", "<NA>", "n/a"]

/-- Crude model of pandas type inference for one field, used only when
`dtype=str` is NOT passed: digit-only fields become numbers. -/
def inferCell (s : String) : Cell :=
  match s.toNat? with
  | some n => Cell.num n
  | none => Cell.text s

/-- Modelled from pandas `read_csv` field conversion: with `keep_default_na`
a default NA marker becomes NaN; with `dtype=str` everything else stays text;
otherwise types are inferred. -/
def convertField (dtypeStr keepNa : Bool) (s : String) : Cell :=
  if keepNa && s ∈ defaultNaValues then Cell.na
  else if dtypeStr then Cell.text s
  else inferCell s

/-- Modelled from pandas `read_csv`: convert every field of a decoded CSV. -/
def pd_convert (dtypeStr keepNa : Bool) (raw : RawCsv) : PTable :=
  ⟨raw.header, raw.rows.map (List.map (convertField dtypeStr keepNa))⟩

/-- Modelled from Python `str.lower` as the script uses it on column names:
lowercase every character (identical to `String.toLower`, but in a form the
kernel evaluates). -/
def lowerName (s : String) : String := String.mk (s.data.map Char.toLower)

/-- Outcome of trying to decode-and-tokenize a file under one encoding. -/
inductive ParseOutcome where
  | ok (raw : RawCsv)
  | decodeError
  | tokenizeError (msg : String)
  deriving DecidableEq, Repr

/-- A file on disk, abstracted by what `pd.read_csv` would do to it under the
default encoding and under latin-1. -/
structure FileModel where
  underDefault : ParseOutcome
  underLatin1 : ParseOutcome
  deriving DecidableEq, Repr

/-- Errors `read_csv_any` can propagate to its caller. -/
inductive PdError where
  | unicodeDecodeError
  | tokenizeError (msg : String)
  deriving DecidableEq, Repr

/-- Rendering of a propagated pandas error, used for the fatal outcome. -/
def pd_error_msg : PdError → String
  | PdError.unicodeDecodeError => "UnicodeDecodeError"
  | PdError.tokenizeError m => m

/-- The encodings `read_csv_any` may attempt, in order. -/
inductive Encoding where
  | defaultEnc
  | latin1
  deriving DecidableEq, Repr

/-- Diagnostic events of a run (the model of the script's stdout lines). -/
inductive Event where
  | info (msg : String)
  | warn (msg : String)
  | readCsv (path : String)
  | writeTable (name : String)
  | verifyAttempt (name : String)
  | verifyOk (name : String) (cnt : Nat)
  | doneMsg
  deriving DecidableEq, Repr

/-- The remote database: a map from schema-qualified table name to contents. -/
abbrev DB := String → Option PTable

/-- Overwrite one table of the database. -/
def DB.set (db : DB) (key : String) (t : PTable) : DB :=
  fun k => if k = key then some t else db k

/-- The environment a run executes in: the process environment, the behaviour
of each candidate ODBC driver (connection probe outcome and, on failure, the
exception's text and type name), the server version string, the filesystem,
the initial database state, and an oracle for verification-query failures. -/
structure World where
  env : String → Option String
  connectOk : String → Bool
  connectErr : String → String
  connectErrType : String → String
  version : String
  fs : String → Option FileModel
  tables0 : DB
  countFails : String → Bool

/-- `os.getenv(key, default)`. -/
def getenv (env : String → Option String) (key dflt : String) : String :=
  (env key).getD dflt

def server (w : World) : String :=
  getenv w.env "AZURE_SQL_SERVER" "hwdbms-server.database.windows.net"

def database (w : World) : String :=
  getenv w.env "AZURE_SQL_DATABASE" "hwdbms"

def username (w : World) : String :=
  getenv w.env "AZURE_SQL_USER" "hwdbms"

def password (w : World) : String :=
  getenv w.env "AZURE_SQL_PASSWORD" "Init@123"

/-- Default brand CSV path (script-relative, as resolved from `BASE_DIR`). -/
def brand_csv (w : World) : String :=
  getenv w.env "BRAND_CSV" "data/brand-detail-url-etc_0_0_0.csv"

/-- Default spend CSV path (script-relative, as resolved from `BASE_DIR`). -/
def spend_csv (w : World) : String :=
  getenv w.env "SPEND_CSV" "data/2021-01-19--data_01be88c2-0306-48b3-0042-fa0703282ad6_1304_5_0.csv"

/-- The ODBC connection string built for one candidate driver (line 45-49). -/
def odbc_string (w : World) (driver : String) : String :=
  "DRIVER=\x7b" ++ driver ++ "\x7d;" ++
  "SERVER=" ++ server w ++ ";DATABASE=" ++ database w ++ ";UID=" ++ username w ++
  ";PWD=" ++ password w ++ ";" ++
  "Encrypt=yes;TrustServerCertificate=no;Connection Timeout=30;"

/-- The warning printed when a candidate driver fails (line 59). -/
def driver_fail_msg (w : World) (d : String) : String :=
  "Driver failed: " ++ d ++ " -> " ++ w.connectErrType d ++ ": " ++ w.connectErr d

/-- What one `build_engine` run produces: the engine's driver or the fatal
error message, the connection strings that were constructed (in order), and
the warnings logged along the way. -/
structure TryResult where
  result : Except String String
  tried : List String
  warns : List Event
  deriving Repr

/-- The candidate driver list of `build_engine` (lines 37-40). -/
def candidates : List String :=
  ["ODBC Driver 18 for SQL Server", "ODBC Driver 17 for SQL Server"]

/-- The loop of `build_engine` (lines 42-60): for each driver, construct the
connection string, probe the connection (`SELECT 1`); on success return the
engine, on failure record the error, log a warning and continue; when the
candidates are exhausted raise with the last error interpolated. -/
def build_engine_go (w : World) (lastErr : Option String) : List String → TryResult
  | [] =>
    ⟨Except.error ("No usable ODBC driver found. Last error: " ++ lastErr.getD "None"),
      [], []⟩
  | d :: rest =>
    let conn := odbc_string w d
    if w.connectOk d then
      ⟨Except.ok d, [conn], []⟩
    else
      let r := build_engine_go w (some (w.connectErr d)) rest
      ⟨r.result, conn :: r.tried, Event.warn (driver_fail_msg w d) :: r.warns⟩

/-- `build_engine` (lines 35-60). -/
def build_engine (w : World) : TryResult :=
  build_engine_go w none candidates

/-- `read_csv_any` (lines 62-67): try `pd.read_csv(path, dtype=str,
keep_default_na=False)` under the default encoding; only a
`UnicodeDecodeError` triggers one retry with `encoding="latin-1"`; any other
error, or a failure of the retry itself, propagates. Alongside the result we
record which encodings were attempted, in order. -/
def read_csv_any (f : FileModel) : Except PdError PTable × List Encoding :=
  match f.underDefault with
  | ParseOutcome.ok raw =>
    (Except.ok (pd_convert true false raw), [Encoding.defaultEnc])
  | ParseOutcome.tokenizeError m =>
    (Except.error (PdError.tokenizeError m), [Encoding.defaultEnc])
  | ParseOutcome.decodeError =>
    match f.underLatin1 with
    | ParseOutcome.ok raw =>
      (Except.ok (pd_convert true false raw), [Encoding.defaultEnc, Encoding.latin1])
    | ParseOutcome.tokenizeError m =>
      (Except.error (PdError.tokenizeError m), [Encoding.defaultEnc, Encoding.latin1])
    | ParseOutcome.decodeError =>
      (Except.error PdError.unicodeDecodeError, [Encoding.defaultEnc, Encoding.latin1])

/-- The warning printed for a missing CSV (line 72). -/
def file_not_found_msg (path : String) : String :=
  "File not found: " ++ path ++ ". Set BRAND_CSV/SPEND_CSV env vars if paths differ."

/-- `ensure_exists` (lines 69-74): `False` plus a warning naming the path and
the overriding env vars when the path is absent, else `True`. -/
def ensure_exists (w : World) (path : String) : Bool × List Event :=
  match w.fs path with
  | none => (false, [Event.warn (file_not_found_msg path)])
  | some _ => (true, [])

/-- The `if_exists` modes of `DataFrame.to_sql`. -/
inductive IfExists where
  | fail
  | replace
  | append
  deriving DecidableEq, Repr

/-- Modelled from pandas `DataFrame.to_sql` documented semantics: `replace`
drops and recreates the destination from the frame, `append` inserts after the
existing rows, `fail` raises when the table already exists. -/
def to_sql (df : PTable) (name schema : String) (mode : IfExists) (db : DB) :
    Except String DB :=
  let key := schema ++ "." ++ name
  match mode, db key with
  | IfExists.fail, some _ => Except.error ("Table " ++ key ++ " already exists.")
  | IfExists.fail, none => Except.ok (DB.set db key df)
  | IfExists.replace, _ => Except.ok (DB.set db key df)
  | IfExists.append, some old => Except.ok (DB.set db key ⟨old.header, old.rows ++ df.rows⟩)
  | IfExists.append, none => Except.ok (DB.set db key df)

/-- One ingest block of `main` (lines 86-91 and, with other parameters,
93-98), with the `ensure_exists` guard fused in: if the path is absent, warn
and skip; otherwise read the CSV (a read error propagates and aborts `main`),
lowercase the column names, and write with `if_exists="replace"`. -/
def ingest_one (w : World) (path tname : String) (db : DB) :
    Except String DB × List Event :=
  match w.fs path with
  | none => (Except.ok db, [Event.warn (file_not_found_msg path)])
  | some f =>
    match (read_csv_any f).fst with
    | Except.error e => (Except.error (pd_error_msg e), [Event.readCsv path])
    | Except.ok t =>
      let t2 : PTable := ⟨t.header.map lowerName, t.rows⟩
      match to_sql t2 tname "dbo" IfExists.replace db with
      | Except.ok db2 => (Except.ok db2, [Event.readCsv path, Event.writeTable tname])
      | Except.error m => (Except.error m, [Event.readCsv path])

/-- `SELECT COUNT(*) FROM dbo.{t}` (line 104): fails when the query fails for
an external reason or the table does not exist, else returns the row count. -/
def count_query (w : World) (db : DB) (t : String) : Except Unit Nat :=
  if w.countFails t then Except.error ()
  else
    match db ("dbo." ++ t) with
    | none => Except.error ()
    | some tbl => Except.ok tbl.rows.length

/-- One iteration of the verification loop (lines 102-107): attempt the count;
log it on success; on any failure `pass` (nothing is emitted, nothing raised). -/
def verify_one (w : World) (db : DB) (t : String) : List Event :=
  Event.verifyAttempt t ::
    match count_query w db t with
    | Except.ok n => [Event.verifyOk t n]
    | Except.error _ => []

/-- The verification loop over `("brand", "daily_spend")` (lines 101-107). -/
def verify_step (w : World) (db : DB) : List Event :=
  verify_one w db "brand" ++ verify_one w db "daily_spend"

/-- What a whole run produces: the process outcome (an uncaught exception's
message, or normal return), the final database, and the diagnostic events. -/
structure RunResult where
  outcome : Except String Unit
  tables : DB
  events : List Event

/-- The informational lines between the engine probe and the first ingest
(lines 55 and 81-83): the chosen driver and the server version smoke test. -/
def connect_events (w : World) (drv : String) : List Event :=
  [Event.info ("Using driver: " ++ drv),
   Event.info ("Connected to SQL Server: " ++ w.version)]

/-- `main` (lines 76-109): build the engine (fatal if none), smoke-test the
version, ingest the brand CSV then the spend CSV (a read error propagates and
aborts the run; a missing file only warns), run the verification loop, and
print the completion message. -/
def runMain (w : World) : RunResult :=
  match (build_engine w).result with
  | Except.error msg => ⟨Except.error msg, w.tables0, (build_engine w).warns⟩
  | Except.ok drv =>
    match (ingest_one w (brand_csv w) "brand" w.tables0).fst with
    | Except.error msg =>
      ⟨Except.error msg, w.tables0,
        (build_engine w).warns ++ connect_events w drv ++
          (ingest_one w (brand_csv w) "brand" w.tables0).snd⟩
    | Except.ok db1 =>
      match (ingest_one w (spend_csv w) "daily_spend" db1).fst with
      | Except.error msg =>
        ⟨Except.error msg, db1,
          (build_engine w).warns ++ connect_events w drv ++
            (ingest_one w (brand_csv w) "brand" w.tables0).snd ++
            (ingest_one w (spend_csv w) "daily_spend" db1).snd⟩
      | Except.ok db2 =>
        ⟨Except.ok (), db2,
          (build_engine w).warns ++ connect_events w drv ++
            (ingest_one w (brand_csv w) "brand" w.tables0).snd ++
            (ingest_one w (spend_csv w) "daily_spend" db1).snd ++
            verify_step w db2 ++ [Event.doneMsg]⟩

/-! Concrete instances used to witness the theorems below. -/

/-- The first candidate driver of the script. -/
def driver18 : String := "ODBC Driver 18 for SQL Server"

/-- The second candidate driver of the script. -/
def driver17 : String := "ODBC Driver 17 for SQL Server"

/-- A 3-row brand CSV with mixed-case headers. -/
def rawBrand : RawCsv :=
  ⟨["ID", "Name"], [["1", "Acme"], ["2", "Globex"], ["3", "Initech"]]⟩

/-- A spend CSV with an empty field (a default NA marker when not disabled). -/
def rawSpend : RawCsv :=
  ⟨["Date", "Spend"], [["2021-01-19", ""], ["2021-01-20", "42"]]⟩

/-- A brand file that parses fine under the default encoding. -/
def fBrandFile : FileModel := ⟨ParseOutcome.ok rawBrand, ParseOutcome.ok rawBrand⟩

/-- A spend file decodable only under latin-1. -/
def fSpendFile : FileModel := ⟨ParseOutcome.decodeError, ParseOutcome.ok rawSpend⟩

/-- A malformed file: the tokenizer fails under the default encoding. -/
def fBadFile : FileModel :=
  ⟨ParseOutcome.tokenizeError "Error tokenizing data", ParseOutcome.ok rawBrand⟩

/-- Prior contents of `dbo.brand`: 2 rows from an earlier run. -/
def oldBrand : PTable :=
  ⟨["id", "name"], [[Cell.text "1", Cell.text "Acme"], [Cell.text "2", Cell.text "Globex"]]⟩

/-- A world where only driver 17 connects, both CSVs are present (the spend
one only latin-1-decodable), and `dbo.brand` still holds 2 rows. -/
def wRun : World where
  env := fun _ => none
  connectOk := fun d => d == driver17
  connectErr := fun _ => "Data source name not found"
  connectErrType := fun _ => "OperationalError"
  version := "Microsoft SQL Azure (RTM) - 12.0"
  fs := fun p =>
    if p == "data/brand-detail-url-etc_0_0_0.csv" then some fBrandFile
    else if p == "data/2021-01-19--data_01be88c2-0306-48b3-0042-fa0703282ad6_1304_5_0.csv" then
      some fSpendFile
    else none
  tables0 := fun k => if k == "dbo.brand" then some oldBrand else none
  countFails := fun _ => false

/-- Like `wRun` but with the brand CSV absent from disk. -/
def wNoBrand : World :=
  { wRun with
    fs := fun p =>
      if p == "data/2021-01-19--data_01be88c2-0306-48b3-0042-fa0703282ad6_1304_5_0.csv" then
        some fSpendFile
      else none }

/-- Like `wRun` but the brand CSV is malformed (tokenizer error). -/
def wBadBrand : World :=
  { wRun with
    fs := fun p =>
      if p == "data/brand-detail-url-etc_0_0_0.csv" then some fBadFile
      else if p == "data/2021-01-19--data_01be88c2-0306-48b3-0042-fa0703282ad6_1304_5_0.csv" then
        some fSpendFile
      else none }

/-- A world where every driver fails, with distinguishable error strings. -/
def wAllFail : World :=
  { wRun with
    connectOk := fun _ => false
    connectErr := fun d => "No driver named " ++ d }

/-! Helper lemmas shared by the claim theorems. -/

theorem DB.set_same (db : DB) (key : String) (t : PTable) :
    DB.set db key t key = some t := by
  simp [DB.set]

theorem DB.set_other (db : DB) (key : String) (t : PTable) (k : String)
    (h : k ≠ key) : DB.set db key t k = db k := by
  simp [DB.set, h]

theorem to_sql_replace_eq (df : PTable) (name schema : String) (db : DB) :
    to_sql df name schema IfExists.replace db =
      Except.ok (DB.set db (schema ++ "." ++ name) df) := by
  cases h : db (schema ++ "." ++ name) <;> simp [to_sql, h]

theorem ingest_one_absent (w : World) (path tname : String) (db : DB)
    (h : w.fs path = none) :
    ingest_one w path tname db =
      (Except.ok db, [Event.warn (file_not_found_msg path)]) := by
  simp [ingest_one, h]

theorem ingest_one_read_ok (w : World) (path tname : String) (db : DB)
    (f : FileModel) (t : PTable)
    (hf : w.fs path = some f) (ht : (read_csv_any f).fst = Except.ok t) :
    ingest_one w path tname db =
      (Except.ok (DB.set db ("dbo." ++ tname) ⟨t.header.map lowerName, t.rows⟩),
       [Event.readCsv path, Event.writeTable tname]) := by
  simp [ingest_one, hf, ht, to_sql_replace_eq]

theorem ingest_one_read_err (w : World) (path tname : String) (db : DB)
    (f : FileModel) (e : PdError)
    (hf : w.fs path = some f) (he : (read_csv_any f).fst = Except.error e) :
    ingest_one w path tname db =
      (Except.error (pd_error_msg e), [Event.readCsv path]) := by
  simp [ingest_one, hf, he]

theorem ingest_one_fst_ok_frame (w : World) (path tname : String) (db db2 : DB)
    (h : (ingest_one w path tname db).fst = Except.ok db2) :
    ∀ k, k ≠ "dbo." ++ tname → db2 k = db k := by
  intro k hk
  cases hfs : w.fs path with
  | none =>
    rw [ingest_one_absent w path tname db hfs] at h
    cases h
    rfl
  | some f =>
    cases hr : (read_csv_any f).fst with
    | error e =>
      rw [ingest_one_read_err w path tname db f e hfs hr] at h
      cases h
    | ok t =>
      rw [ingest_one_read_ok w path tname db f t hfs hr] at h
      cases h
      exact DB.set_other db _ _ k hk

theorem ingest_one_events_shape (w : World) (path tname : String) (db : DB) :
    ∀ e ∈ (ingest_one w path tname db).snd,
      e = Event.warn (file_not_found_msg path) ∨ e = Event.readCsv path ∨
        e = Event.writeTable tname := by
  intro e he
  cases hfs : w.fs path with
  | none =>
    rw [ingest_one_absent w path tname db hfs] at he
    simp at he
    exact Or.inl he
  | some f =>
    cases hr : (read_csv_any f).fst with
    | error er =>
      rw [ingest_one_read_err w path tname db f er hfs hr] at he
      simp at he
      exact Or.inr (Or.inl he)
    | ok t =>
      rw [ingest_one_read_ok w path tname db f t hfs hr] at he
      simp at he
      rcases he with he | he
      · exact Or.inr (Or.inl he)
      · exact Or.inr (Or.inr he)

theorem build_engine_go_warns_shape (w : World) (cs : List String) :
    ∀ le, ∀ e ∈ (build_engine_go w le cs).warns, ∃ m, e = Event.warn m := by
  induction cs with
  | nil =>
    intro le e he
    simp [build_engine_go] at he
  | cons d ds ih =>
    intro le e he
    by_cases hd : w.connectOk d = true
    · simp [build_engine_go, hd] at he
    · simp only [build_engine_go, Bool.not_eq_true] at hd
      simp [build_engine_go, hd, List.mem_cons] at he
      rcases he with he | he
      · exact ⟨_, he⟩
      · exact ih (some (w.connectErr d)) e he

theorem build_engine_warns_shape (w : World) :
    ∀ e ∈ (build_engine w).warns, ∃ m, e = Event.warn m :=
  build_engine_go_warns_shape w candidates none

theorem build_engine_go_cons_ok (w : World) (le : Option String) (d : String)
    (rest : List String) (hd : w.connectOk d = true) :
    build_engine_go w le (d :: rest) = ⟨Except.ok d, [odbc_string w d], []⟩ := by
  simp [build_engine_go, hd]

theorem build_engine_go_cons_fail (w : World) (le : Option String) (d : String)
    (rest : List String) (hd : w.connectOk d = false) :
    build_engine_go w le (d :: rest) =
      ⟨(build_engine_go w (some (w.connectErr d)) rest).result,
       odbc_string w d :: (build_engine_go w (some (w.connectErr d)) rest).tried,
       Event.warn (driver_fail_msg w d) ::
         (build_engine_go w (some (w.connectErr d)) rest).warns⟩ := by
  simp [build_engine_go, hd]

theorem build_engine_go_success_aux (w : World) (pre : List String)
    (post : List String) (k : String)
    (hpre : ∀ d ∈ pre, w.connectOk d = false) (hk : w.connectOk k = true) :
    ∀ le, build_engine_go w le (pre ++ k :: post) =
      ⟨Except.ok k, (pre ++ [k]).map (odbc_string w),
        pre.map (fun d => Event.warn (driver_fail_msg w d))⟩ := by
  induction pre with
  | nil =>
    intro le
    simpa using build_engine_go_cons_ok w le k post hk
  | cons d ds ih =>
    intro le
    have hd : w.connectOk d = false := hpre d (List.mem_cons_self d ds)
    have hds : ∀ x ∈ ds, w.connectOk x = false :=
      fun x hx => hpre x (List.mem_cons_of_mem d hx)
    rw [List.cons_append, build_engine_go_cons_fail w le d (ds ++ k :: post) hd,
      ih hds (some (w.connectErr d))]
    simp

theorem build_engine_go_fail_aux (w : World) (cs : List String)
    (hne : cs ≠ []) (hall : ∀ d ∈ cs, w.connectOk d = false) :
    ∀ le, build_engine_go w le cs =
      ⟨Except.error
          ("No usable ODBC driver found. Last error: " ++ w.connectErr (cs.getLast hne)),
        cs.map (odbc_string w),
        cs.map (fun d => Event.warn (driver_fail_msg w d))⟩ := by
  induction cs with
  | nil => cases hne rfl
  | cons d ds ih =>
    intro le
    have hd : w.connectOk d = false := hall d (List.mem_cons_self d ds)
    cases ds with
    | nil =>
      rw [build_engine_go_cons_fail w le d [] hd]
      simp [build_engine_go, List.getLast]
    | cons e es =>
      have hds : ∀ x ∈ e :: es, w.connectOk x = false :=
        fun x hx => hall x (List.mem_cons_of_mem d hx)
      have hne2 : e :: es ≠ [] := List.cons_ne_nil e es
      rw [build_engine_go_cons_fail w le d (e :: es) hd,
        ih hne2 hds (some (w.connectErr d)), List.getLast_cons hne2]
      simp

theorem verify_one_ok (w : World) (db : DB) (t : String) (n : Nat)
    (h : count_query w db t = Except.ok n) :
    verify_one w db t = [Event.verifyAttempt t, Event.verifyOk t n] := by
  simp [verify_one, h]

theorem verify_one_err (w : World) (db : DB) (t : String)
    (h : count_query w db t = Except.error ()) :
    verify_one w db t = [Event.verifyAttempt t] := by
  simp [verify_one, h]

theorem verify_one_head (w : World) (db : DB) (t : String) :
    ∃ rest, verify_one w db t = Event.verifyAttempt t :: rest :=
  ⟨_, rfl⟩

theorem verify_one_shape (w : World) (db : DB) (t : String) :
    ∀ e ∈ verify_one w db t,
      e = Event.verifyAttempt t ∨ ∃ n, e = Event.verifyOk t n := by
  intro e he
  cases hc : count_query w db t with
  | ok n =>
    rw [verify_one_ok w db t n hc] at he
    simp at he
    rcases he with he | he
    · exact Or.inl he
    · exact Or.inr ⟨n, he⟩
  | error u =>
    cases u
    rw [verify_one_err w db t hc] at he
    simp at he
    exact Or.inl he

theorem verify_step_shape (w : World) (db : DB) :
    ∀ e ∈ verify_step w db,
      (∃ t, e = Event.verifyAttempt t) ∨ ∃ t n, e = Event.verifyOk t n := by
  intro e he
  rcases List.mem_append.mp he with h | h
  · rcases verify_one_shape w db "brand" e h with h2 | ⟨n, h2⟩
    · exact Or.inl ⟨_, h2⟩
    · exact Or.inr ⟨_, n, h2⟩
  · rcases verify_one_shape w db "daily_spend" e h with h2 | ⟨n, h2⟩
    · exact Or.inl ⟨_, h2⟩
    · exact Or.inr ⟨_, n, h2⟩

theorem runMain_engine_fail (w : World) (msg : String)
    (hb : (build_engine w).result = Except.error msg) :
    runMain w = ⟨Except.error msg, w.tables0, (build_engine w).warns⟩ := by
  unfold runMain
  rw [hb]

theorem runMain_brand_fail (w : World) (drv msg : String)
    (hb : (build_engine w).result = Except.ok drv)
    (h1 : (ingest_one w (brand_csv w) "brand" w.tables0).fst = Except.error msg) :
    runMain w = ⟨Except.error msg, w.tables0,
      (build_engine w).warns ++ connect_events w drv ++
        (ingest_one w (brand_csv w) "brand" w.tables0).snd⟩ := by
  unfold runMain
  rw [hb]
  dsimp only
  rw [h1]

theorem runMain_spend_fail (w : World) (drv msg : String) (db1 : DB)
    (hb : (build_engine w).result = Except.ok drv)
    (h1 : (ingest_one w (brand_csv w) "brand" w.tables0).fst = Except.ok db1)
    (h2 : (ingest_one w (spend_csv w) "daily_spend" db1).fst = Except.error msg) :
    runMain w = ⟨Except.error msg, db1,
      (build_engine w).warns ++ connect_events w drv ++
        (ingest_one w (brand_csv w) "brand" w.tables0).snd ++
        (ingest_one w (spend_csv w) "daily_spend" db1).snd⟩ := by
  unfold runMain
  rw [hb]
  dsimp only
  rw [h1]
  dsimp only
  rw [h2]

theorem runMain_all_ok (w : World) (drv : String) (db1 db2 : DB)
    (hb : (build_engine w).result = Except.ok drv)
    (h1 : (ingest_one w (brand_csv w) "brand" w.tables0).fst = Except.ok db1)
    (h2 : (ingest_one w (spend_csv w) "daily_spend" db1).fst = Except.ok db2) :
    runMain w = ⟨Except.ok (), db2,
      (build_engine w).warns ++ connect_events w drv ++
        (ingest_one w (brand_csv w) "brand" w.tables0).snd ++
        (ingest_one w (spend_csv w) "daily_spend" db1).snd ++
        verify_step w db2 ++ [Event.doneMsg]⟩ := by
  unfold runMain
  rw [hb]
  dsimp only
  rw [h1]
  dsimp only
  rw [h2]

/-! The claim theorems. -/

/-- C1: for every ordered candidate driver list, if driver `k` is the first
candidate whose connection attempt and `SELECT 1` probe both succeed (all
candidates before it fail, `k` succeeds), then `build_engine` returns an
engine configured with driver `k`, the connection strings constructed are
exactly those of the candidates up to and including `k` (so none is built
for, and no attempt is made on, any candidate after `k`), and exactly the
failing candidates before `k` are warned about. -/
theorem build_engine_first_success (w : World) (pre post : List String)
    (k : String) (hpre : ∀ d ∈ pre, w.connectOk d = false)
    (hk : w.connectOk k = true) :
    (build_engine_go w none (pre ++ k :: post)).result = Except.ok k ∧
    (build_engine_go w none (pre ++ k :: post)).tried =
      (pre ++ [k]).map (odbc_string w) ∧
    (build_engine_go w none (pre ++ k :: post)).warns =
      pre.map (fun d => Event.warn (driver_fail_msg w d)) := by
  rw [build_engine_go_success_aux w pre post k hpre hk none]
  exact ⟨rfl, rfl, rfl⟩

/-- Witness for C1: in `wRun` only driver 17 connects; with driver 18 before
it and a further candidate after it, the run returns driver 17 and builds
connection strings only for drivers 18 and 17. -/
theorem build_engine_first_success_witness :
    (build_engine_go wRun none
        ([driver18] ++ driver17 :: ["ODBC Driver 13 for SQL Server"])).result =
      Except.ok driver17 ∧
    (build_engine_go wRun none
        ([driver18] ++ driver17 :: ["ODBC Driver 13 for SQL Server"])).tried =
      ([driver18] ++ [driver17]).map (odbc_string wRun) := by
  have h := build_engine_first_success wRun [driver18]
    ["ODBC Driver 13 for SQL Server"] driver17 (by decide) (by decide)
  exact ⟨h.1, h.2.1⟩

/-- C2: if every candidate fails, `build_engine` raises (returns the error
outcome, never an engine) with a message that is the fixed prefix followed by
the last candidate's underlying error description, and every candidate
failure along the way is logged as a warning rather than raised. -/
theorem build_engine_all_fail (w : World) (cs : List String) (hne : cs ≠ [])
    (hall : ∀ d ∈ cs, w.connectOk d = false) :
    (build_engine_go w none cs).result =
      Except.error
        ("No usable ODBC driver found. Last error: " ++ w.connectErr (cs.getLast hne)) ∧
    (∀ drv, (build_engine_go w none cs).result ≠ Except.ok drv) ∧
    (build_engine_go w none cs).warns =
      cs.map (fun d => Event.warn (driver_fail_msg w d)) := by
  rw [build_engine_go_fail_aux w cs hne hall none]
  refine ⟨rfl, ?_, rfl⟩
  intro drv h
  cases h

/-- Witness for C2: in `wAllFail` both script candidates fail; the fatal
message ends with the error of driver 17 (the last candidate) and both
failures are warned about. -/
theorem build_engine_all_fail_witness :
    (build_engine wAllFail).result =
      Except.error
        ("No usable ODBC driver found. Last error: No driver named ODBC Driver 17 for SQL Server") ∧
    (build_engine wAllFail).warns =
      [Event.warn
        "Driver failed: ODBC Driver 18 for SQL Server -> OperationalError: No driver named ODBC Driver 18 for SQL Server",
       Event.warn
        "Driver failed: ODBC Driver 17 for SQL Server -> OperationalError: No driver named ODBC Driver 17 for SQL Server"] := by
  have h := build_engine_all_fail wAllFail candidates (by decide) (by decide)
  refine ⟨?_, ?_⟩
  · rw [build_engine, h.1]
    rfl
  · rw [build_engine, h.2.2]
    rfl

theorem convertField_str (s : String) : convertField true false s = Cell.text s := by
  simp [convertField]

theorem pd_convert_str (raw : RawCsv) :
    pd_convert true false raw =
      ⟨raw.header, raw.rows.map (fun r => r.map Cell.text)⟩ := by
  have h : convertField true false = Cell.text := funext convertField_str
  simp [pd_convert, h]

theorem runMain_tables_brand (w : World) (drv : String) (f : FileModel)
    (t : PTable) (hb : (build_engine w).result = Except.ok drv)
    (hf : w.fs (brand_csv w) = some f)
    (ht : (read_csv_any f).fst = Except.ok t) :
    (runMain w).tables "dbo.brand" =
      some ⟨t.header.map lowerName, t.rows⟩ := by
  have h1 := ingest_one_read_ok w (brand_csv w) "brand" w.tables0 f t hf ht
  have h1f : (ingest_one w (brand_csv w) "brand" w.tables0).fst =
      Except.ok (DB.set w.tables0 ("dbo." ++ "brand")
        ⟨t.header.map lowerName, t.rows⟩) := by
    rw [h1]
  cases h2 : (ingest_one w (spend_csv w) "daily_spend"
      (DB.set w.tables0 ("dbo." ++ "brand") ⟨t.header.map lowerName, t.rows⟩)).fst with
  | error msg =>
    rw [runMain_spend_fail w drv msg _ hb h1f h2]
    simp [DB.set]
  | ok db2 =>
    rw [runMain_all_ok w drv _ db2 hb h1f h2]
    have hfr := ingest_one_fst_ok_frame w (spend_csv w) "daily_spend" _ db2 h2
      "dbo.brand" (by decide)
    dsimp only
    rw [hfr]
    simp [DB.set]

theorem runMain_tables_spend (w : World) (drv : String) (db1 : DB)
    (g : FileModel) (ts : PTable)
    (hb : (build_engine w).result = Except.ok drv)
    (h1 : (ingest_one w (brand_csv w) "brand" w.tables0).fst = Except.ok db1)
    (hg : w.fs (spend_csv w) = some g)
    (hts : (read_csv_any g).fst = Except.ok ts) :
    (runMain w).tables "dbo.daily_spend" =
      some ⟨ts.header.map lowerName, ts.rows⟩ ∧
    (runMain w).outcome = Except.ok () := by
  have h2 := ingest_one_read_ok w (spend_csv w) "daily_spend" db1 g ts hg hts
  have h2f : (ingest_one w (spend_csv w) "daily_spend" db1).fst =
      Except.ok (DB.set db1 ("dbo." ++ "daily_spend")
        ⟨ts.header.map lowerName, ts.rows⟩) := by
    rw [h2]
  rw [runMain_all_ok w drv db1 _ hb h1 h2f]
  refine ⟨?_, rfl⟩
  simp [DB.set]

/-- C5: `read_csv_any` always attempts the default encoding first; it retries
(exactly once) with latin-1 if and only if the default attempt fails with a
decoding error; a default-encoding parse succeeds as is; a non-decoding parse
error propagates without any retry; and after a decode-error retry the
latin-1 outcome (success, decode failure, or malformed file) is what the
caller gets. -/
theorem read_csv_any_encoding_fallback (f : FileModel) :
    (read_csv_any f).snd.head? = some Encoding.defaultEnc ∧
    ((read_csv_any f).snd = [Encoding.defaultEnc, Encoding.latin1] ↔
      f.underDefault = ParseOutcome.decodeError) ∧
    (f.underDefault ≠ ParseOutcome.decodeError →
      (read_csv_any f).snd = [Encoding.defaultEnc]) ∧
    (∀ raw, f.underDefault = ParseOutcome.ok raw →
      (read_csv_any f).fst = Except.ok (pd_convert true false raw)) ∧
    (∀ m, f.underDefault = ParseOutcome.tokenizeError m →
      (read_csv_any f).fst = Except.error (PdError.tokenizeError m)) ∧
    (f.underDefault = ParseOutcome.decodeError →
      (∀ raw, f.underLatin1 = ParseOutcome.ok raw →
        (read_csv_any f).fst = Except.ok (pd_convert true false raw)) ∧
      (∀ m, f.underLatin1 = ParseOutcome.tokenizeError m →
        (read_csv_any f).fst = Except.error (PdError.tokenizeError m)) ∧
      (f.underLatin1 = ParseOutcome.decodeError →
        (read_csv_any f).fst = Except.error PdError.unicodeDecodeError)) := by
  cases hd : f.underDefault <;> cases hl : f.underLatin1 <;>
    simp [read_csv_any, hd, hl]

/-- Witness for C5: the spend file decodes only under latin-1; both encodings
are attempted in order and the latin-1 parse is returned. -/
theorem read_csv_any_encoding_fallback_witness :
    (read_csv_any fSpendFile).snd = [Encoding.defaultEnc, Encoding.latin1] ∧
    (read_csv_any fSpendFile).fst = Except.ok (pd_convert true false rawSpend) := by
  have h := read_csv_any_encoding_fallback fSpendFile
  exact ⟨(h.2.1).mpr rfl, (h.2.2.2.2.2 rfl).1 rawSpend rfl⟩

/-- C8: with `dtype=str` and `keep_default_na=False`, every loaded field stays
the text of the CSV field (no numeric parsing and no NA coercion, the empty
string included), both in the snapshot `read_csv_any` returns and in the rows
written to the destination table by the run. -/
theorem read_csv_all_text (w : World) (drv : String) (f : FileModel)
    (raw : RawCsv) (hb : (build_engine w).result = Except.ok drv)
    (hf : w.fs (brand_csv w) = some f)
    (hd : f.underDefault = ParseOutcome.ok raw ∨
      (f.underDefault = ParseOutcome.decodeError ∧
        f.underLatin1 = ParseOutcome.ok raw)) :
    (read_csv_any f).fst =
      Except.ok ⟨raw.header, raw.rows.map (fun r => r.map Cell.text)⟩ ∧
    convertField true false "" = Cell.text "" ∧
    (∃ tb, (runMain w).tables "dbo.brand" = some tb ∧
      tb.rows = raw.rows.map (fun r => r.map Cell.text) ∧
      ∀ r ∈ tb.rows, ∀ c ∈ r, c ≠ Cell.na) := by
  have hread : (read_csv_any f).fst =
      Except.ok ⟨raw.header, raw.rows.map (fun r => r.map Cell.text)⟩ := by
    rcases hd with hd | ⟨hd, hl⟩
    · rw [← pd_convert_str raw]
      exact (read_csv_any_encoding_fallback f).2.2.2.1 raw hd
    · rw [← pd_convert_str raw]
      exact ((read_csv_any_encoding_fallback f).2.2.2.2.2 hd).1 raw hl
  refine ⟨hread, convertField_str "", ?_⟩
  refine ⟨_, runMain_tables_brand w drv f _ hb hf hread, rfl, ?_⟩
  intro r hr c hc
  simp only [List.mem_map] at hr
  rcases hr with ⟨r0, _, hr0⟩
  subst hr0
  simp only [List.mem_map] at hc
  rcases hc with ⟨s, _, hs⟩
  subst hs
  intro hcon
  cases hcon

theorem list_toFinset_map (f : String → String) (l : List String) :
    (l.map f).toFinset = l.toFinset.image f := by
  induction l with
  | nil => simp
  | cons a as ih => simp [ih]

/-- C3: whenever the brand CSV loads successfully as snapshot `t`, the run
leaves `dbo.brand` holding exactly the snapshot (lowercased header, the same
rows) whatever the table held before: the rows are `t.rows` themselves, in
particular their count, with no rows of the prior contents surviving or being
appended. -/
theorem runMain_brand_replace (w : World) (drv : String) (f : FileModel)
    (t : PTable) (hb : (build_engine w).result = Except.ok drv)
    (hf : w.fs (brand_csv w) = some f)
    (ht : (read_csv_any f).fst = Except.ok t) :
    (runMain w).tables "dbo.brand" =
      some ⟨t.header.map lowerName, t.rows⟩ ∧
    ∀ tb, (runMain w).tables "dbo.brand" = some tb →
      tb.rows = t.rows ∧ tb.rows.length = t.rows.length := by
  have h := runMain_tables_brand w drv f t hb hf ht
  refine ⟨h, ?_⟩
  intro tb htb
  rw [h] at htb
  injection htb with h2
  subst h2
  exact ⟨rfl, rfl⟩

/-- Witness for C3: in `wRun` the table `dbo.brand` previously held the 2
rows of `oldBrand`; after the run it holds exactly the 3 rows of the new CSV
(3, not 2 + 3 = 5). -/
theorem runMain_brand_replace_witness :
    wRun.tables0 "dbo.brand" = some oldBrand ∧
    oldBrand.rows.length = 2 ∧
    (runMain wRun).tables "dbo.brand" =
      some ⟨["id", "name"],
        [[Cell.text "1", Cell.text "Acme"], [Cell.text "2", Cell.text "Globex"],
         [Cell.text "3", Cell.text "Initech"]]⟩ ∧
    ∀ tb, (runMain wRun).tables "dbo.brand" = some tb → tb.rows.length = 3 := by
  have h := runMain_brand_replace wRun driver17 fBrandFile
    (pd_convert true false rawBrand) rfl rfl rfl
  refine ⟨rfl, rfl, ?_, ?_⟩
  · rw [h.1]
    decide
  · intro tb htb
    rw [(h.2 tb htb).2]
    decide

/-- C4: for both destination tables, the header actually written is the
lowercased source header, and so as a set of column names it is exactly the
image of the CSV header set under lowercasing, whatever the source casing. -/
theorem runMain_lowercase_columns (w : World) (drv : String) (f g : FileModel)
    (tb ts : PTable) (hb : (build_engine w).result = Except.ok drv)
    (hf : w.fs (brand_csv w) = some f)
    (htb : (read_csv_any f).fst = Except.ok tb)
    (hg : w.fs (spend_csv w) = some g)
    (hts : (read_csv_any g).fst = Except.ok ts) :
    (∃ t, (runMain w).tables "dbo.brand" = some t ∧
      t.header = tb.header.map lowerName ∧
      t.header.toFinset = tb.header.toFinset.image lowerName) ∧
    (∃ t, (runMain w).tables "dbo.daily_spend" = some t ∧
      t.header = ts.header.map lowerName ∧
      t.header.toFinset = ts.header.toFinset.image lowerName) := by
  have h1 := ingest_one_read_ok w (brand_csv w) "brand" w.tables0 f tb hf htb
  have h1f : (ingest_one w (brand_csv w) "brand" w.tables0).fst =
      Except.ok (DB.set w.tables0 ("dbo." ++ "brand")
        ⟨tb.header.map lowerName, tb.rows⟩) := by
    rw [h1]
  have hbrand := runMain_tables_brand w drv f tb hb hf htb
  have hspend := runMain_tables_spend w drv _ g ts hb h1f hg hts
  refine ⟨⟨_, hbrand, rfl, ?_⟩, ⟨_, hspend.1, rfl, ?_⟩⟩
  · exact list_toFinset_map lowerName tb.header
  · exact list_toFinset_map lowerName ts.header

/-- Witness for C4: the mixed-case headers `ID,Name` and `Date,Spend` are
written as `id,name` and `date,spend`. -/
theorem runMain_lowercase_columns_witness :
    (∃ t, (runMain wRun).tables "dbo.brand" = some t ∧
      t.header = ["id", "name"]) ∧
    (∃ t, (runMain wRun).tables "dbo.daily_spend" = some t ∧
      t.header = ["date", "spend"]) := by
  have h := runMain_lowercase_columns wRun driver17 fBrandFile fSpendFile
    (pd_convert true false rawBrand) (pd_convert true false rawSpend)
    rfl rfl rfl rfl rfl
  rcases h with ⟨⟨t1, ht1, hh1, _⟩, ⟨t2, ht2, hh2, _⟩⟩
  refine ⟨⟨t1, ht1, ?_⟩, ⟨t2, ht2, ?_⟩⟩
  · rw [hh1]
    decide
  · rw [hh2]
    decide

/-- Witness for C8: the brand CSV's fields, the empty string included, arrive
as text cells in the snapshot and in the written `dbo.brand`. -/
theorem read_csv_all_text_witness :
    (read_csv_any fBrandFile).fst =
      Except.ok ⟨["ID", "Name"],
        [[Cell.text "1", Cell.text "Acme"], [Cell.text "2", Cell.text "Globex"],
         [Cell.text "3", Cell.text "Initech"]]⟩ ∧
    (∃ tb, (runMain wRun).tables "dbo.brand" = some tb ∧
      tb.rows = [[Cell.text "1", Cell.text "Acme"], [Cell.text "2", Cell.text "Globex"],
        [Cell.text "3", Cell.text "Initech"]] ∧
      ∀ r ∈ tb.rows, ∀ c ∈ r, c ≠ Cell.na) := by
  have h := read_csv_all_text wRun driver17 fBrandFile rawBrand rfl rfl (Or.inl rfl)
  exact ⟨h.1, h.2.2⟩

/-- C6: when the brand CSV is absent, `ensure_exists` warns (naming the path
and the overriding env vars) and the run skips that load and write entirely
(`dbo.brand` keeps its prior contents, no read or write event for it occurs),
does not abort, and still loads and writes the spend CSV normally. -/
theorem runMain_missing_file_skips (w : World) (drv : String) (g : FileModel)
    (ts : PTable) (hb : (build_engine w).result = Except.ok drv)
    (hf : w.fs (brand_csv w) = none)
    (hg : w.fs (spend_csv w) = some g)
    (hts : (read_csv_any g).fst = Except.ok ts)
    (hne : brand_csv w ≠ spend_csv w) :
    ensure_exists w (brand_csv w) =
      (false, [Event.warn (file_not_found_msg (brand_csv w))]) ∧
    (runMain w).outcome = Except.ok () ∧
    Event.warn (file_not_found_msg (brand_csv w)) ∈ (runMain w).events ∧
    (runMain w).tables "dbo.brand" = w.tables0 "dbo.brand" ∧
    Event.readCsv (brand_csv w) ∉ (runMain w).events ∧
    Event.writeTable "brand" ∉ (runMain w).events ∧
    (runMain w).tables "dbo.daily_spend" =
      some ⟨ts.header.map lowerName, ts.rows⟩ := by
  have h1 := ingest_one_absent w (brand_csv w) "brand" w.tables0 hf
  have h1f : (ingest_one w (brand_csv w) "brand" w.tables0).fst =
      Except.ok w.tables0 := by rw [h1]
  have h2 := ingest_one_read_ok w (spend_csv w) "daily_spend" w.tables0 g ts hg hts
  have h2f : (ingest_one w (spend_csv w) "daily_spend" w.tables0).fst =
      Except.ok (DB.set w.tables0 ("dbo." ++ "daily_spend")
        ⟨ts.header.map lowerName, ts.rows⟩) := by rw [h2]
  have hrm := runMain_all_ok w drv w.tables0 _ hb h1f h2f
  refine ⟨by simp [ensure_exists, hf], ?_, ?_, ?_, ?_, ?_, ?_⟩
  · rw [hrm]
  · rw [hrm]
    dsimp only
    rw [h1, h2]
    simp
  · rw [hrm]
    dsimp only
    exact DB.set_other w.tables0 _ _ "dbo.brand" (by decide)
  · rw [hrm]
    dsimp only
    rw [h1, h2]
    intro hmem
    rcases List.mem_append.mp hmem with hA | hDone
    · rcases List.mem_append.mp hA with hB | hVs
      · rcases List.mem_append.mp hB with hC | hS2
        · rcases List.mem_append.mp hC with hD | hS1
          · rcases List.mem_append.mp hD with hW | hCe
            · rcases build_engine_warns_shape w _ hW with ⟨m, hm⟩
              simp at hm
            · simp [connect_events] at hCe
          · simp at hS1
        · simp at hS2
          exact hne hS2
      · rcases verify_step_shape w _ _ hVs with ⟨t2, h2⟩ | ⟨t2, n2, h2⟩ <;> simp at h2
    · simp at hDone
  · rw [hrm]
    dsimp only
    rw [h1, h2]
    intro hmem
    rcases List.mem_append.mp hmem with hA | hDone
    · rcases List.mem_append.mp hA with hB | hVs
      · rcases List.mem_append.mp hB with hC | hS2
        · rcases List.mem_append.mp hC with hD | hS1
          · rcases List.mem_append.mp hD with hW | hCe
            · rcases build_engine_warns_shape w _ hW with ⟨m, hm⟩
              simp at hm
            · simp [connect_events] at hCe
          · simp at hS1
        · simp at hS2
      · rcases verify_step_shape w _ _ hVs with ⟨t2, h2⟩ | ⟨t2, n2, h2⟩ <;> simp at h2
    · simp at hDone
  · rw [hrm]
    dsimp only
    exact DB.set_same w.tables0 _ _

/-- Witness for C6: in `wNoBrand` the brand CSV is absent; the run warns,
keeps the 2 old rows of `dbo.brand`, completes, and still writes the spend
table from the latin-1 decodable spend CSV. -/
theorem runMain_missing_file_skips_witness :
    (runMain wNoBrand).outcome = Except.ok () ∧
    Event.warn (file_not_found_msg "data/brand-detail-url-etc_0_0_0.csv") ∈
      (runMain wNoBrand).events ∧
    (runMain wNoBrand).tables "dbo.brand" = some oldBrand ∧
    (runMain wNoBrand).tables "dbo.daily_spend" =
      some ⟨["date", "spend"],
        [[Cell.text "2021-01-19", Cell.text ""], [Cell.text "2021-01-20", Cell.text "42"]]⟩ := by
  have h := runMain_missing_file_skips wNoBrand driver17 fSpendFile
    (pd_convert true false rawSpend) rfl rfl rfl rfl (by decide)
  refine ⟨h.2.1, h.2.2.1, h.2.2.2.1.trans rfl, ?_⟩
  rw [h.2.2.2.2.2.2]
  decide

/-- C7: once both ingest steps have succeeded, the run always completes
normally (the verification oracle cannot change the outcome); the verifier
attempts the count for `brand` and then for `daily_spend`; a successful count
is logged, and a failed count emits nothing beyond the attempt (the error is
suppressed and the loop continues). -/
theorem runMain_verify_best_effort (w : World) (drv : String) (db1 db2 : DB)
    (hb : (build_engine w).result = Except.ok drv)
    (h1 : (ingest_one w (brand_csv w) "brand" w.tables0).fst = Except.ok db1)
    (h2 : (ingest_one w (spend_csv w) "daily_spend" db1).fst = Except.ok db2) :
    (runMain w).outcome = Except.ok () ∧
    Event.verifyAttempt "brand" ∈ (runMain w).events ∧
    Event.verifyAttempt "daily_spend" ∈ (runMain w).events ∧
    (∀ t n, count_query w db2 t = Except.ok n →
      verify_one w db2 t = [Event.verifyAttempt t, Event.verifyOk t n]) ∧
    (∀ t, count_query w db2 t = Except.error () →
      verify_one w db2 t = [Event.verifyAttempt t]) ∧
    (∀ t n, t ∈ (["brand", "daily_spend"] : List String) →
      count_query w db2 t = Except.ok n →
      Event.verifyOk t n ∈ (runMain w).events) := by
  have hrm := runMain_all_ok w drv db1 db2 hb h1 h2
  have hmem : ∀ e ∈ verify_step w db2, e ∈ (runMain w).events := by
    intro e he
    rw [hrm]
    dsimp only
    exact List.mem_append.mpr (Or.inl (List.mem_append.mpr (Or.inr he)))
  refine ⟨by rw [hrm], ?_, ?_, ?_, ?_, ?_⟩
  · exact hmem _ (List.mem_append.mpr (Or.inl (List.mem_cons_self _ _)))
  · exact hmem _ (List.mem_append.mpr (Or.inr (List.mem_cons_self _ _)))
  · intro t n hc
    exact verify_one_ok w db2 t n hc
  · intro t hc
    exact verify_one_err w db2 t hc
  · intro t n hmemt hc
    have hv : Event.verifyOk t n ∈ verify_one w db2 t := by
      rw [verify_one_ok w db2 t n hc]
      exact List.mem_cons_of_mem _ (List.mem_cons_self _ _)
    rcases List.mem_cons.mp hmemt with ht | ht
    · subst ht
      exact hmem _ (List.mem_append.mpr (Or.inl hv))
    · rcases List.mem_singleton.mp ht with rfl
      exact hmem _ (List.mem_append.mpr (Or.inr hv))

/-- Witness for C7: in `wRun` both loads succeed; the run ends normally with
both count attempts made. -/
theorem runMain_verify_best_effort_witness :
    (runMain wRun).outcome = Except.ok () ∧
    Event.verifyAttempt "brand" ∈ (runMain wRun).events ∧
    Event.verifyAttempt "daily_spend" ∈ (runMain wRun).events := by
  have h := runMain_verify_best_effort wRun driver17 _ _ rfl rfl rfl
  exact ⟨h.1, h.2.1, h.2.2.1⟩

/-- C9: if the brand CSV is present but its load raises (both encodings fail
or the file is malformed), the whole run aborts with that error: the spend
CSV is never read, no table is written, no verification attempt is made and
the completion message is never printed, and the database is untouched. -/
theorem runMain_brand_fatal_aborts (w : World) (drv : String) (f : FileModel)
    (e : PdError) (hb : (build_engine w).result = Except.ok drv)
    (hf : w.fs (brand_csv w) = some f)
    (he : (read_csv_any f).fst = Except.error e)
    (hne : brand_csv w ≠ spend_csv w) :
    (runMain w).outcome = Except.error (pd_error_msg e) ∧
    (runMain w).tables = w.tables0 ∧
    Event.readCsv (spend_csv w) ∉ (runMain w).events ∧
    (∀ n, Event.writeTable n ∉ (runMain w).events) ∧
    (∀ t, Event.verifyAttempt t ∉ (runMain w).events) ∧
    Event.doneMsg ∉ (runMain w).events := by
  have h1 := ingest_one_read_err w (brand_csv w) "brand" w.tables0 f e hf he
  have h1f : (ingest_one w (brand_csv w) "brand" w.tables0).fst =
      Except.error (pd_error_msg e) := by rw [h1]
  have hrm := runMain_brand_fail w drv (pd_error_msg e) hb h1f
  have hshape : ∀ ev ∈ (runMain w).events,
      (∃ m, ev = Event.warn m) ∨ (∃ m, ev = Event.info m) ∨
        ev = Event.readCsv (brand_csv w) := by
    intro ev hmem
    rw [hrm] at hmem
    dsimp only at hmem
    rw [h1] at hmem
    rcases List.mem_append.mp hmem with hA | hS1
    · rcases List.mem_append.mp hA with hW | hCe
      · rcases build_engine_warns_shape w _ hW with ⟨m, hm⟩
        exact Or.inl ⟨m, hm⟩
      · simp [connect_events] at hCe
        rcases hCe with hCe | hCe
        · exact Or.inr (Or.inl ⟨_, hCe⟩)
        · exact Or.inr (Or.inl ⟨_, hCe⟩)
    · simp at hS1
      exact Or.inr (Or.inr hS1)
  refine ⟨by rw [hrm], by rw [hrm], ?_, ?_, ?_, ?_⟩
  · intro hmem
    rcases hshape _ hmem with ⟨m, hm⟩ | ⟨m, hm⟩ | hm
    · simp at hm
    · simp at hm
    · simp at hm
      exact hne hm.symm
  · intro n hmem
    rcases hshape _ hmem with ⟨m, hm⟩ | ⟨m, hm⟩ | hm <;> simp at hm
  · intro t hmem
    rcases hshape _ hmem with ⟨m, hm⟩ | ⟨m, hm⟩ | hm <;> simp at hm
  · intro hmem
    rcases hshape _ hmem with ⟨m, hm⟩ | ⟨m, hm⟩ | hm <;> simp at hm

/-- Witness for C9: in `wBadBrand` the brand CSV is malformed; the run aborts
with the tokenizer error, the database is untouched and no completion message
is printed. -/
theorem runMain_brand_fatal_aborts_witness :
    (runMain wBadBrand).outcome = Except.error "Error tokenizing data" ∧
    (runMain wBadBrand).tables = wBadBrand.tables0 ∧
    Event.doneMsg ∉ (runMain wBadBrand).events := by
  have h := runMain_brand_fatal_aborts wBadBrand driver17 fBadFile
    (PdError.tokenizeError "Error tokenizing data") rfl rfl rfl (by decide)
  exact ⟨h.1, h.2.1, h.2.2.2.2.2⟩

/-- C10: when the brand CSV is absent but the spend step succeeds, the run
writes nothing to `dbo.brand` (indeed to no key other than
`dbo.daily_spend`), so its prior contents are untouched; the verifier still
attempts the row count for both destination tables, and the run ends with
the completion message. -/
theorem runMain_skip_frame_and_verify (w : World) (drv : String) (db2 : DB)
    (hb : (build_engine w).result = Except.ok drv)
    (hf : w.fs (brand_csv w) = none)
    (h2 : (ingest_one w (spend_csv w) "daily_spend" w.tables0).fst = Except.ok db2) :
    (runMain w).outcome = Except.ok () ∧
    (∀ k, k ≠ "dbo.daily_spend" → (runMain w).tables k = w.tables0 k) ∧
    (runMain w).tables "dbo.brand" = w.tables0 "dbo.brand" ∧
    Event.writeTable "brand" ∉ (runMain w).events ∧
    Event.verifyAttempt "brand" ∈ (runMain w).events ∧
    Event.verifyAttempt "daily_spend" ∈ (runMain w).events ∧
    (runMain w).events.getLast? = some Event.doneMsg := by
  have h1 := ingest_one_absent w (brand_csv w) "brand" w.tables0 hf
  have h1f : (ingest_one w (brand_csv w) "brand" w.tables0).fst =
      Except.ok w.tables0 := by rw [h1]
  have hrm := runMain_all_ok w drv w.tables0 db2 hb h1f h2
  have hframe : ∀ k, k ≠ "dbo.daily_spend" → (runMain w).tables k = w.tables0 k := by
    intro k hk
    rw [hrm]
    dsimp only
    exact ingest_one_fst_ok_frame w (spend_csv w) "daily_spend" w.tables0 db2 h2 k
      (fun hc => hk (hc.trans
        (show ("dbo." ++ "daily_spend" : String) = "dbo.daily_spend" from rfl)))
  have hmemv : ∀ e ∈ verify_step w db2, e ∈ (runMain w).events := by
    intro e he
    rw [hrm]
    dsimp only
    exact List.mem_append.mpr (Or.inl (List.mem_append.mpr (Or.inr he)))
  refine ⟨by rw [hrm], hframe, hframe "dbo.brand" (by decide), ?_, ?_, ?_, ?_⟩
  · intro hmem
    rw [hrm] at hmem
    dsimp only at hmem
    rw [h1] at hmem
    rcases List.mem_append.mp hmem with hA | hDone
    · rcases List.mem_append.mp hA with hB | hVs
      · rcases List.mem_append.mp hB with hC | hS2
        · rcases List.mem_append.mp hC with hD | hS1
          · rcases List.mem_append.mp hD with hW | hCe
            · rcases build_engine_warns_shape w _ hW with ⟨m, hm⟩
              simp at hm
            · simp [connect_events] at hCe
          · simp at hS1
        · rcases ingest_one_events_shape w (spend_csv w) "daily_spend" w.tables0 _ hS2
            with hm | hm | hm <;> simp at hm
      · rcases verify_step_shape w _ _ hVs with ⟨t2, h2v⟩ | ⟨t2, n2, h2v⟩ <;> simp at h2v
    · simp at hDone
  · exact hmemv _ (List.mem_append.mpr (Or.inl (List.mem_cons_self _ _)))
  · exact hmemv _ (List.mem_append.mpr (Or.inr (List.mem_cons_self _ _)))
  · rw [hrm]
    dsimp only
    rw [List.getLast?_append_of_ne_nil _ (by simp)]
    rfl

/-- Witness for C10: in `wNoBrand` the skipped brand table keeps its prior
contents, both verification attempts happen, and the run completes. -/
theorem runMain_skip_frame_and_verify_witness :
    (runMain wNoBrand).outcome = Except.ok () ∧
    (runMain wNoBrand).tables "dbo.brand" = wNoBrand.tables0 "dbo.brand" ∧
    Event.verifyAttempt "brand" ∈ (runMain wNoBrand).events ∧
    Event.verifyAttempt "daily_spend" ∈ (runMain wNoBrand).events ∧
    (runMain wNoBrand).events.getLast? = some Event.doneMsg := by
  have h := runMain_skip_frame_and_verify wNoBrand driver17 _ rfl rfl rfl
  exact ⟨h.1, h.2.2.1, h.2.2.2.2.1, h.2.2.2.2.2.1, h.2.2.2.2.2.2⟩
